import Mathlib

/-!
Shallow embedding of `kube_util.go` from bharatnc/kube-exec.

The Go code is a thin wrapper over the Kubernetes client: it creates a pod,
watches pod events until the pod runs, and attaches an interactive stream to
the pod's first container.  The embedding below models the pure data flow of
each function: Go pointers become `Option`, Go's multi-value `(T, error)`
returns and runtime panics become the three-way `GoResult`, the stop channel
plus its `sync.Once` become an explicit state record, and the event-handler
callback of `waitPod` becomes a state-transition function folded over a list
of observed events.
-/

namespace KubeExec

/-- Result of a Go computation: a value, a returned `error`, or a runtime
panic (e.g. an out-of-range slice index or closing a closed channel). -/
inductive GoResult (α : Type) where
  | ok (a : α)
  | err (msg : String)
  | panic (msg : String)
  deriving DecidableEq

/-- The Go constant `v1.PodRunning`. -/
def PodRunning : String := "Running"

/-- The Go constant `v1.PullAlways`. -/
def PullAlways : String := "Always"

/-- The Go constant `v1.RestartPolicyOnFailure`. -/
def RestartPolicyOnFailure : String := "OnFailure"

/-- `v1.LocalObjectReference`: a reference to an object by name. -/
structure LocalObjectReference where
  name : String
  deriving DecidableEq

/-- `v1.SecretKeySelector`: selects a key of a named secret. -/
structure SecretKeySelector where
  localObjectReference : LocalObjectReference
  key : String
  deriving DecidableEq

/-- `v1.EnvVarSource`: source for an environment variable's value; only the
secret-key branch is used by this program. -/
structure EnvVarSource where
  secretKeyRef : Option SecretKeySelector
  deriving DecidableEq

/-- `v1.EnvVar`: an environment variable present in a container. -/
structure EnvVar where
  name : String
  value : String
  valueFrom : Option EnvVarSource
  deriving DecidableEq

/-- `v1.SecurityContext`: only the `Privileged` pointer is used here. -/
structure SecurityContext where
  privileged : Option Bool
  deriving DecidableEq

/-- `v1.Container`: the fields `createPod` and the lookup touch. -/
structure Container where
  name : String
  image : String
  command : List String
  args : List String
  tty : Bool
  stdin : Bool
  securityContext : Option SecurityContext
  imagePullPolicy : String
  env : List EnvVar
  volumeMounts : List Unit
  deriving DecidableEq

/-- `v1.PodSpec`: the fields this program reads or writes. -/
structure PodSpec where
  containers : List Container
  initContainers : List Container
  restartPolicy : String
  volumes : List Unit
  imagePullSecrets : List LocalObjectReference
  deriving DecidableEq

/-- `v1.PodStatus`: only the phase is inspected (by `waitPod`). -/
structure PodStatus where
  phase : String
  deriving DecidableEq

/-- `v1.Pod`: metadata (name, namespace), spec and status. -/
structure Pod where
  name : String
  ns : String
  spec : PodSpec
  status : PodStatus
  deriving DecidableEq

/-- `v1.PodAttachOptions`: which streams to attach, and the target container. -/
structure PodAttachOptions where
  container : String
  stdin : Bool
  stdout : Bool
  stderr : Bool
  tty : Bool
  deriving DecidableEq

/-- `remotecommand.StreamOptions`, generic over the reader type `R` and the
writer type `W`; Go's nil interface values become `none`. -/
structure StreamOptions (R W : Type) where
  stdin : Option R
  stdout : Option W
  stderr : Option W
  tty : Bool
  terminalSizeQueue : Option Unit
  deriving DecidableEq

/-- A secret entry of the configuration: `EnvVarName`, `SecretName`,
`SecretKey` (fields read by `createPod` from `cfg.Secrets`). -/
structure Secret where
  envVarName : String
  secretName : String
  secretKey : String
  deriving DecidableEq

/-- The configuration record `Config`, with the fields `createPod` and the
run sequence read: kubeconfig path, namespace, pod/container name, image,
and the secrets to expose as environment variables. -/
structure Config where
  kubeconfig : String
  ns : String
  name : String
  image : String
  secrets : List Secret
  deriving DecidableEq

/-- The body of the `for _, s := range cfg.Secrets` loop of `createPod`: the
secret-backed `EnvVar` appended for one secret entry. -/
def secretEnvVar (s : Secret) : EnvVar :=
  { name := s.envVarName
    value := ""
    valueFrom := some
      { secretKeyRef := some
          { localObjectReference := { name := s.secretName }
            key := s.secretKey } } }

/-- The loop body applied down `cfg.Secrets`, threading the accumulator. -/
def buildEnv : List Secret → List EnvVar → List EnvVar
  | [], acc => acc
  | s :: rest, acc => buildEnv rest (acc ++ [secretEnvVar s])

/-- The pod object `createPod` submits to `podsClient.Create`: name from the
config, a single container (TTY false, stdin true, unprivileged, pull-always,
env from secrets), restart policy `OnFailure`. -/
def submittedPod (cfg : Config) (command args : List String) : Pod :=
  { name := cfg.name
    ns := ""
    spec :=
      { containers :=
          [{ tty := false
             stdin := true
             name := cfg.name
             image := cfg.image
             command := command
             args := args
             securityContext := some { privileged := some false }
             imagePullPolicy := PullAlways
             env := buildEnv cfg.secrets []
             volumeMounts := [] }]
        initContainers := []
        restartPolicy := RestartPolicyOnFailure
        volumes := []
        imagePullSecrets := [] }
    status := { phase := "" } }

/-- The `for i := range ...` linear search loops of `containerToAttachTo`:
first container of the list whose name equals the argument. -/
def findContainerLoop : List Container → String → Option Container
  | [], _ => none
  | c :: rest, n => if c.name == n then some c else findContainerLoop rest n

/-- Go's `&pod.Spec.Containers[0]`: first element, or an index-out-of-range
panic when the slice is empty. -/
def index0 : List Container → GoResult Container
  | [] => GoResult.panic "runtime error: index out of range [0] with length 0"
  | c :: _ => GoResult.ok c

/-- `containerToAttachTo`: by-name linear lookup through `Containers` then
`InitContainers` when the name is non-empty, otherwise the first container. -/
def containerToAttachTo (container : String) (pod : Pod) : GoResult Container :=
  if container.length > 0 then
    match findContainerLoop pod.spec.containers container with
    | some c => GoResult.ok c
    | none =>
      match findContainerLoop pod.spec.initContainers container with
      | some c => GoResult.ok c
      | none => GoResult.err ("container not found (" ++ container ++ ")")
  else index0 pod.spec.containers

/-- `getStreamOptions`: starts from the zero-valued `StreamOptions` and sets
each stream only when the corresponding attach-options flag is set. -/
def getStreamOptions {R W : Type} (attachOptions : PodAttachOptions)
    (stdin : R) (stdout stderr : W) : StreamOptions R W :=
  let s0 : StreamOptions R W :=
    { stdin := none, stdout := none, stderr := none
      tty := false, terminalSizeQueue := none }
  let s1 := if attachOptions.stdin then { s0 with stdin := some stdin } else s0
  let s2 := if attachOptions.stdout then { s1 with stdout := some stdout } else s1
  if attachOptions.stderr then { s2 with stderr := some stderr } else s2

/-- The attach request `attach` builds: a POST to the pod's `attach`
subresource carrying the chosen container and the stream options. -/
structure AttachRequest (R W : Type) where
  podName : String
  ns : String
  container : String
  streamOptions : StreamOptions R W
  deriving DecidableEq

/-- `attach`: selects a container with `containerToAttachTo("", pod)`,
overwrites `attachOptions.Container` with its name (in-place in Go; here the
updated options record is returned alongside the request), builds the stream
options and the attach request.  A non-nil lookup error is wrapped and
returned; a panic propagates. -/
def attach {R W : Type} (pod : Pod) (attachOptions : PodAttachOptions)
    (stdin : R) (stdout stderr : W) :
    GoResult (AttachRequest R W × PodAttachOptions) :=
  match containerToAttachTo "" pod with
  | GoResult.err e => GoResult.err ("cannot get container to attach to: " ++ e)
  | GoResult.panic m => GoResult.panic m
  | GoResult.ok container =>
    let attachOptions' := { attachOptions with container := container.name }
    let streamOptions := getStreamOptions attachOptions' stdin stdout stderr
    GoResult.ok
      ({ podName := pod.name, ns := pod.ns
         container := container.name, streamOptions := streamOptions },
       attachOptions')

/-- State of a `stopChan`: whether the `sync.Once` has fired, whether the
underlying channel `s.c` is closed, and how many times `close(s.c)` ran
(a ghost counter for the exactly-once property). -/
structure StopChanState where
  onceDone : Bool
  chanClosed : Bool
  closeCount : Nat
  deriving DecidableEq

/-- `newStopChan`: a fresh open channel, the `Once` not yet fired. -/
def newStopChan : StopChanState :=
  { onceDone := false, chanClosed := false, closeCount := 0 }

/-- Go's `close(s.c)`: closes the channel, or panics when it is already
closed. -/
def closeChan (s : StopChanState) : GoResult StopChanState :=
  if s.chanClosed then GoResult.panic "close of closed channel"
  else GoResult.ok { s with chanClosed := true, closeCount := s.closeCount + 1 }

/-- `stopChan.closeOnce`: `s.Do(func() { close(s.c) })` — runs the close only
the first time. -/
def closeOnce (s : StopChanState) : GoResult StopChanState :=
  if s.onceDone then GoResult.ok s
  else
    match closeChan s with
    | GoResult.ok s' => GoResult.ok { s' with onceDone := true }
    | r => r

/-- Iterates `closeOnce` a given number of times, stopping at the first
error or panic. -/
def closeOnceIter : Nat → StopChanState → GoResult StopChanState
  | 0, s => GoResult.ok s
  | n + 1, s =>
    match closeOnce s with
    | GoResult.ok s' => closeOnceIter n s'
    | r => r

/-- The `UpdateFunc` handler installed by `waitPod`: ignores pods with a
different name, calls `closeOnce` when the watched pod is reported
`Running`, and otherwise leaves the stop channel alone. -/
def updateFunc (pod newPod : Pod) (stop : StopChanState) : GoResult StopChanState :=
  if newPod.name ≠ pod.name then GoResult.ok stop
  else if newPod.status.phase == PodRunning then closeOnce stop
  else GoResult.ok stop

/-- Folds the `waitPod` update handler over a list of observed update
events, threading the stop-channel state. -/
def processEvents (pod : Pod) : List Pod → StopChanState → GoResult StopChanState
  | [], s => GoResult.ok s
  | e :: es, s =>
    match updateFunc pod e s with
    | GoResult.ok s' => processEvents pod es s'
    | r => r

/-- `controller.Run(stop.c)` returns once the stop channel closes: after a
trace of update events, `waitPod` has returned exactly when the stop channel
state reached by the handler is closed. -/
def waitPodReturned (pod : Pod) (events : List Pod) : Bool :=
  match processEvents pod events newStopChan with
  | GoResult.ok s => s.chanClosed
  | _ => false

/-- The externally visible Kubernetes API calls the program issues. -/
inductive ApiCall where
  | createPod (ns : String) (pod : Pod)
  | listWatchPods (ns : String)
  | attachRequest (ns podName container : String)
  | spdyStream
  deriving DecidableEq

/-- API calls issued by `createPod`: one pod-creation call in the
configured namespace. -/
def createPodCalls (cfg : Config) (command args : List String) : List ApiCall :=
  [ApiCall.createPod cfg.ns (submittedPod cfg command args)]

/-- API calls issued by `waitPod`: one list/watch of pods in the pod's
namespace. -/
def waitPodCalls (pod : Pod) : List ApiCall :=
  [ApiCall.listWatchPods pod.ns]

/-- API calls issued by `attach`: the POST to the attach subresource and the
SPDY stream, or nothing when the container selection does not succeed. -/
def attachCalls (pod : Pod) : List ApiCall :=
  match containerToAttachTo "" pod with
  | GoResult.ok c => [ApiCall.attachRequest pod.ns pod.name c.name, ApiCall.spdyStream]
  | _ => []

/-- The pod object the API server hands back from the create call: the
submitted pod with its namespace populated by the server. -/
def createdPod (cfg : Config) (command args : List String) : Pod :=
  { submittedPod cfg command args with ns := cfg.ns }

/-- Modelled from the spec: the top-level run sequence of the program (its
source file is not under `src/`) — "create pod, list/watch pod, build a SPDY
exec/attach request", i.e. `createPod`, then `waitPod` on the created pod,
then `attach` to it. -/
def runProgram (cfg : Config) (command args : List String) : List ApiCall :=
  let pod := createdPod cfg command args
  createPodCalls cfg command args ++ waitPodCalls pod ++ attachCalls pod

/-! Concrete values used to exercise the theorems. -/

/-- A sample regular container named `a`. -/
def containerA : Container :=
  { name := "a", image := "img-a", command := [], args := []
    tty := false, stdin := false, securityContext := none
    imagePullPolicy := "", env := [], volumeMounts := [] }

/-- A sample regular container named `b`. -/
def containerB : Container :=
  { containerA with name := "b", image := "img-b" }

/-- A sample init container that shares the name `b` with a regular
container, to exercise lookup precedence. -/
def initContainerB : Container :=
  { containerA with name := "b", image := "img-b-init" }

/-- A sample pod with two regular containers and one init container. -/
def podW : Pod :=
  { name := "p", ns := "d"
    spec :=
      { containers := [containerA, containerB]
        initContainers := [initContainerB]
        restartPolicy := "", volumes := [], imagePullSecrets := [] }
    status := { phase := "" } }

/-- A sample pod whose `Containers` list is empty. -/
def podNoContainers : Pod :=
  { name := "p0", ns := "d"
    spec :=
      { containers := [], initContainers := []
        restartPolicy := "", volumes := [], imagePullSecrets := [] }
    status := { phase := "" } }

/-- Sample attach options with a caller-supplied container name. -/
def attachOptionsW : PodAttachOptions :=
  { container := "caller-set", stdin := true, stdout := true
    stderr := false, tty := false }

/-! Helper lemmas. -/

/-- A non-empty string has positive length. -/
theorem ne_empty_length_pos (s : String) (h : s ≠ "") : 0 < s.length := by
  cases s with
  | mk data =>
    cases data with
    | nil => exact absurd rfl h
    | cons c cs => simp [String.length]

/-- The linear search loop distributes over append: the second list is only
searched when the first has no match. -/
theorem findContainerLoop_append (l₁ l₂ : List Container) (n : String) :
    findContainerLoop (l₁ ++ l₂) n =
      match findContainerLoop l₁ n with
      | some c => some c
      | none => findContainerLoop l₂ n := by
  induction l₁ with
  | nil => rfl
  | cons c rest ih =>
    by_cases h : c.name == n <;> simp [findContainerLoop, h, ih]

/-- The linear search loop is exactly first-match search. -/
theorem findContainerLoop_eq_find? (cs : List Container) (n : String) :
    findContainerLoop cs n = cs.find? (fun c => c.name == n) := by
  induction cs with
  | nil => rfl
  | cons c rest ih =>
    by_cases h : c.name == n <;> simp [findContainerLoop, List.find?, h, ih]

/-- Once the `sync.Once` has fired, further `closeOnce` iterations change
nothing and cannot fail. -/
theorem closeOnceIter_done (n : Nat) (s : StopChanState) (h : s.onceDone = true) :
    closeOnceIter n s = GoResult.ok s := by
  induction n with
  | zero => rfl
  | succ m ih => simp [closeOnceIter, closeOnce, h, ih]

/-! Claim theorems. -/

/-- C5: `getStreamOptions` sets each of the three streams iff the
corresponding flag of the attach options is set; a stream whose flag is
false stays `none`, and no other field of `StreamOptions` is populated. -/
theorem getStreamOptions_flags {R W : Type} (a : PodAttachOptions)
    (stdin : R) (stdout stderr : W) :
    (getStreamOptions a stdin stdout stderr).stdin
        = (if a.stdin then some stdin else none) ∧
    (getStreamOptions a stdin stdout stderr).stdout
        = (if a.stdout then some stdout else none) ∧
    (getStreamOptions a stdin stdout stderr).stderr
        = (if a.stderr then some stderr else none) ∧
    (getStreamOptions a stdin stdout stderr).tty = false ∧
    (getStreamOptions a stdin stdout stderr).terminalSizeQueue = none := by
  cases h1 : a.stdin <;> cases h2 : a.stdout <;> cases h3 : a.stderr <;>
    simp [getStreamOptions, h1, h2, h3]

/-- C7: with an empty container name, `containerToAttachTo` returns the
first container of `pod.Spec.Containers` exactly when that list is
non-empty, and performs an out-of-range index (a Go panic) exactly when the
list is empty. -/
theorem containerToAttachTo_empty_name (pod : Pod) :
    (∀ c, containerToAttachTo "" pod = GoResult.ok c
        ↔ pod.spec.containers.head? = some c) ∧
    (containerToAttachTo ""
        pod = GoResult.panic "runtime error: index out of range [0] with length 0"
      ↔ pod.spec.containers = []) := by
  cases h : pod.spec.containers with
  | nil => simp [containerToAttachTo, index0, h]
  | cons c rest => simp [containerToAttachTo, index0, h]

/-- C2: the stop signal is one-shot and close-safe: iterating `closeOnce`
any number of times from a fresh `newStopChan` never fails or panics, closes
the underlying channel exactly once (close count 1 for any positive number
of calls), and every call after the first is a no-op. -/
theorem closeOnce_one_shot (n : Nat) :
    closeOnceIter n newStopChan =
      GoResult.ok (if n = 0 then newStopChan
        else { onceDone := true, chanClosed := true, closeCount := 1 }) := by
  cases n with
  | zero => rfl
  | succ m =>
    have h1 : closeOnce newStopChan =
        GoResult.ok { onceDone := true, chanClosed := true, closeCount := 1 } := rfl
    simp [closeOnceIter, h1, closeOnceIter_done]

/-- Invariant of the watch handler: starting from a state whose `Once` flag
agrees with the channel state, processing any event trace succeeds and the
channel ends up closed iff it started closed or some event reports the
watched pod's name in phase `Running`. -/
theorem processEvents_characterization (pod : Pod) (events : List Pod) :
    ∀ s : StopChanState, s.onceDone = s.chanClosed →
    ∃ t, processEvents pod events s = GoResult.ok t ∧ t.onceDone = t.chanClosed ∧
      (t.chanClosed = true ↔ s.chanClosed = true ∨
        ∃ e ∈ events, e.name = pod.name ∧ e.status.phase = PodRunning) := by
  induction events with
  | nil =>
    intro s hs
    exact ⟨s, rfl, hs, by simp⟩
  | cons e es ih =>
    intro s hs
    by_cases hname : e.name = pod.name
    · by_cases hphase : e.status.phase = "Running"
      · have hstep : updateFunc pod e s =
            closeOnce s := by
          simp [updateFunc, hname, hphase, PodRunning]
        cases hc : s.chanClosed with
        | false =>
          have hdone : s.onceDone = false := by rw [hs, hc]
          have hclose : closeOnce s = GoResult.ok
              { onceDone := true, chanClosed := true, closeCount := s.closeCount + 1 } := by
            simp [closeOnce, closeChan, hdone, hc]
          obtain ⟨t, ht, hti, htc⟩ := ih
            { onceDone := true, chanClosed := true, closeCount := s.closeCount + 1 } rfl
          refine ⟨t, ?_, hti, ?_⟩
          · simp [processEvents, hstep, hclose, ht]
          · rw [htc]
            simp [hname, hphase, PodRunning]
        | true =>
          have hdone : s.onceDone = true := by rw [hs, hc]
          have hclose : closeOnce s = GoResult.ok s := by simp [closeOnce, hdone]
          obtain ⟨t, ht, hti, htc⟩ := ih s hs
          refine ⟨t, ?_, hti, ?_⟩
          · simp [processEvents, hstep, hclose, ht]
          · rw [htc]
            simp [hc, hname, hphase, PodRunning]
      · have hstep : updateFunc pod e s = GoResult.ok s := by
          simp [updateFunc, hname, hphase, PodRunning]
        obtain ⟨t, ht, hti, htc⟩ := ih s hs
        refine ⟨t, ?_, hti, ?_⟩
        · simp [processEvents, hstep, ht]
        · rw [htc]
          simp [hphase, PodRunning]
    · have hstep : updateFunc pod e s = GoResult.ok s := by
        simp [updateFunc, hname]
      obtain ⟨t, ht, hti, htc⟩ := ih s hs
      refine ⟨t, ?_, hti, ?_⟩
      · simp [processEvents, hstep, ht]
      · rw [htc]
        simp [hname]

/-- C3: over any trace of update events, the stop channel of `waitPod` is
closed exactly when some event delivered the watched pod's name in phase
`Running`; events for other pods or other phases never close it, and
`waitPod` has returned exactly when such an event was observed. -/
theorem waitPod_stop_iff_running_event (pod : Pod) (events : List Pod) :
    ∃ s, processEvents pod events newStopChan = GoResult.ok s ∧
      (s.chanClosed = true ↔
        ∃ e ∈ events, e.name = pod.name ∧ e.status.phase = PodRunning) ∧
      (waitPodReturned pod events = true ↔
        ∃ e ∈ events, e.name = pod.name ∧ e.status.phase = PodRunning) := by
  obtain ⟨s, hs, _, hiff⟩ :=
    processEvents_characterization pod events newStopChan rfl
  have hiff' : s.chanClosed = true ↔
      ∃ e ∈ events, e.name = pod.name ∧ e.status.phase = PodRunning := by
    rw [hiff]; simp [newStopChan]
  refine ⟨s, hs, hiff', ?_⟩
  rw [waitPodReturned, hs]
  exact hiff'

/-- C1: for a non-empty container name, `containerToAttachTo` is a linear
first-match lookup through the regular containers and then the init
containers: it returns the first container of
`pod.Spec.Containers ++ pod.Spec.InitContainers` with the given name (so a
regular container always takes precedence over an init container of the
same name), and a "container not found" error when neither list has one. -/
theorem containerToAttachTo_linear_lookup (pod : Pod) (container : String)
    (h : container ≠ "") :
    containerToAttachTo container pod =
      match (pod.spec.containers ++ pod.spec.initContainers).find?
          (fun c => c.name == container) with
      | some c => GoResult.ok c
      | none => GoResult.err ("container not found (" ++ container ++ ")") := by
  have hl : 0 < container.length := ne_empty_length_pos container h
  rw [containerToAttachTo, if_pos hl, ← findContainerLoop_eq_find?,
    findContainerLoop_append]
  cases h1 : findContainerLoop pod.spec.containers container with
  | some c => rfl
  | none => cases h2 : findContainerLoop pod.spec.initContainers container <;> rfl

/-- Witness for C1 at a concrete pod: looking up `b` finds the regular
container named `b`, not the init container of the same name. -/
theorem containerToAttachTo_linear_lookup_witness :
    "b" ≠ "" ∧
    containerToAttachTo "b" podW =
      match (podW.spec.containers ++ podW.spec.initContainers).find?
          (fun c => c.name == "b") with
      | some c => GoResult.ok c
      | none => GoResult.err ("container not found (" ++ "b" ++ ")") :=
  ⟨by decide, containerToAttachTo_linear_lookup podW "b" (by decide)⟩

/-- The env-building loop of `createPod` appends exactly one secret-backed
variable per secret, in order. -/
theorem buildEnv_eq_map (secrets : List Secret) :
    ∀ acc : List EnvVar, buildEnv secrets acc = acc ++ secrets.map secretEnvVar := by
  induction secrets with
  | nil => intro acc; simp [buildEnv]
  | cons s rest ih => intro acc; simp [buildEnv, ih]

/-- C9: every pod `createPod` submits has exactly one container, named
`cfg.Name`, with image `cfg.Image`, TTY false, stdin true, a security
context whose `Privileged` points to `false`, pull policy `Always`, and an
env list with exactly one secret-backed variable per entry of
`cfg.Secrets`, in order, mapping `EnvVarName` to the `(SecretName,
SecretKey)` reference; the pod restart policy is `OnFailure`. -/
theorem createPod_spec_invariant (cfg : Config) (command args : List String) :
    (submittedPod cfg command args).spec.containers.length = 1 ∧
    (submittedPod cfg command args).spec.containers =
      [{ name := cfg.name, image := cfg.image, command := command, args := args
         tty := false, stdin := true
         securityContext := some { privileged := some false }
         imagePullPolicy := "Always"
         env := cfg.secrets.map (fun s =>
           { name := s.envVarName
             value := ""
             valueFrom := some
               { secretKeyRef := some
                   { localObjectReference := { name := s.secretName }
                     key := s.secretKey } } })
         volumeMounts := [] }] ∧
    (submittedPod cfg command args).spec.restartPolicy = "OnFailure" := by
  refine ⟨rfl, ?_, rfl⟩
  simp [submittedPod, buildEnv_eq_map, secretEnvVar, PullAlways]

/-- C4 (amended): `attach` selects the pod's first regular container via
`containerToAttachTo` with the empty name, targets it in the attach request
(it is an element of `pod.Spec.Containers`); with an empty name the
selection can never return a Go error — on a pod with no containers it
panics instead, so the error-return branch of `attach` is unreachable. -/
theorem attach_targets_first_container {R W : Type} (pod : Pod)
    (attachOptions : PodAttachOptions) (stdin : R) (stdout stderr : W)
    (c : Container) (hc : pod.spec.containers.head? = some c) :
    attach pod attachOptions stdin stdout stderr =
      GoResult.ok ({ podName := pod.name, ns := pod.ns, container := c.name
                     streamOptions := getStreamOptions
                       { attachOptions with container := c.name } stdin stdout stderr },
                   { attachOptions with container := c.name }) ∧
    c ∈ pod.spec.containers := by
  obtain ⟨c0, rest, h⟩ : ∃ c0 rest, pod.spec.containers = c0 :: rest := by
    cases h : pod.spec.containers with
    | nil => rw [h] at hc; cases hc
    | cons a l => exact ⟨a, l, rfl⟩
  have hc0 : c = c0 := by rw [h] at hc; simpa using hc.symm
  subst hc0
  have hsel : containerToAttachTo "" pod = GoResult.ok c := by
    simp [containerToAttachTo, index0, h]
  refine ⟨?_, by rw [h]; exact List.mem_cons_self c rest⟩
  simp [attach, hsel]

/-- Witness for C4's amended theorem at a concrete pod with containers. -/
theorem attach_targets_first_container_witness :
    podW.spec.containers.head? = some containerA ∧
    (attach podW attachOptionsW (0 : Nat) (0 : Nat) (0 : Nat) =
      GoResult.ok ({ podName := podW.name, ns := podW.ns
                     container := containerA.name
                     streamOptions := getStreamOptions
                       { attachOptionsW with container := containerA.name } 0 0 0 },
                   { attachOptionsW with container := containerA.name }) ∧
     containerA ∈ podW.spec.containers) :=
  ⟨rfl, attach_targets_first_container podW attachOptionsW 0 0 0 containerA rfl⟩

/-- Counterexample to C4 as stated: on a pod with no containers the
selection with the empty name fails, yet `attach` does not return an error —
it propagates the index-out-of-range panic, issuing no attach request. -/
theorem attach_selection_failure_is_panic :
    attach podNoContainers attachOptionsW (0 : Nat) (0 : Nat) (0 : Nat) =
      GoResult.panic "runtime error: index out of range [0] with length 0" := by
  rfl

/-- C8: `attach` ignores whatever container name the caller put into the
attach options — changing it does not change the result — and returns (the
in-place Go mutation of) the options with `Container` overwritten by the
first container's name and every other field unchanged. -/
theorem attach_ignores_given_container {R W : Type} (pod : Pod)
    (attachOptions : PodAttachOptions) (x : String) (stdin : R)
    (stdout stderr : W) (c : Container) (rest : List Container)
    (hc : pod.spec.containers = c :: rest) :
    attach pod { attachOptions with container := x } stdin stdout stderr =
      attach pod attachOptions stdin stdout stderr ∧
    attach pod attachOptions stdin stdout stderr =
      GoResult.ok ({ podName := pod.name, ns := pod.ns, container := c.name
                     streamOptions := getStreamOptions
                       { attachOptions with container := c.name } stdin stdout stderr },
                   { attachOptions with container := c.name }) := by
  have hsel : containerToAttachTo "" pod = GoResult.ok c := by
    simp [containerToAttachTo, index0, hc]
  cases attachOptions with
  | mk cn si so se t => constructor <;> simp [attach, hsel]

/-- Witness for C8 at a concrete pod and options. -/
theorem attach_ignores_given_container_witness :
    podW.spec.containers = containerA :: [containerB] ∧
    (attach podW { attachOptionsW with container := "other" } (0 : Nat) (0 : Nat) (0 : Nat) =
      attach podW attachOptionsW 0 0 0 ∧
    attach podW attachOptionsW 0 0 0 =
      GoResult.ok ({ podName := podW.name, ns := podW.ns
                     container := containerA.name
                     streamOptions := getStreamOptions
                       { attachOptionsW with container := containerA.name } 0 0 0 },
                   { attachOptionsW with container := containerA.name })) :=
  ⟨rfl, attach_ignores_given_container podW attachOptionsW "other" 0 0 0
    containerA [containerB] rfl⟩

/-- C6: the program issues its Kubernetes API calls in exactly this order:
create the pod in the configured namespace, list/watch pods in that
namespace, POST the attach request for the created pod's single container,
and open the SPDY stream — nothing else. -/
theorem runProgram_api_sequence (cfg : Config) (command args : List String) :
    runProgram cfg command args =
      [ApiCall.createPod cfg.ns (submittedPod cfg command args),
       ApiCall.listWatchPods cfg.ns,
       ApiCall.attachRequest cfg.ns cfg.name cfg.name,
       ApiCall.spdyStream] := by
  rfl

end KubeExec
